import Mathlib

/-!
Shallow embedding of the resident-model manager of `src/server.py`
(Qwen-TTS-LXC-deploy).

The server keeps three module-level globals:

  active_model      : Optional[model handle]
  active_model_name : Optional[str]
  last_access_time  : float

and manipulates them through `unload_model`, `get_or_load_model` and the
background coroutine `inactivity_monitor`.  We embed this mutable state as
an explicit `ServerState` record threaded through the operations.  Handles
are abstract naturals; times are naturals (`time.time()` is non-negative
and the code only compares differences against the configured timeout).

Python exceptions are embedded as an `Outcome` value: an operation on the
global state returns `Outcome α × ServerState`; `.exc e` means the Python
call raised `e`, with the returned state being the global state at the
moment the exception escaped (Python mutations performed before the raise
persist).

External effects are oracles passed as parameters:
  * `models`  — the `MODELS` dict from `config.yaml` (`config["models"]`),
    an association list key ↦ model id;
  * `loadFn`  — `Qwen3TTSModel.from_pretrained` on a model id, which
    either produces a handle or raises;
  * `cudaCleanupOk` — whether the CUDA cache-clearing calls performed by
    `unload_model` after the slot is cleared (`torch.cuda.empty_cache()`,
    `torch.cuda.synchronize()`) succeed or raise.

Two instrumentation counters (`loads`, `disposes`) record how many times
the loader was invoked and how many times a resident handle was disposed;
they shadow no Python variable and are written exactly at the source lines
where `from_pretrained` is called and where `del active_model` runs.
-/

/-- Python exception values that the embedded code can raise or store. -/
inductive PyErr where
  | keyError (k : String)
  | indexError
  | typeError (msg : String)
  | loadError (msg : String)
  | disposalError (msg : String)
  | genError (msg : String)
  deriving Repr, DecidableEq

/-- Result of running a Python call against the global state: either a
normal return value or an escaped exception. -/
inductive Outcome (α : Type) where
  | ok (a : α)
  | exc (e : PyErr)
  deriving Repr, DecidableEq

/-- Rendering of a Python exception by `str(e)`, used for HTTP error
details. -/
def strOfErr : PyErr → String
  | .keyError k => k
  | .indexError => "list index out of range"
  | .typeError msg => msg
  | .loadError msg => msg
  | .disposalError msg => msg
  | .genError msg => msg

/-- The module-level globals of `server.py` (lines 48-50), plus two
instrumentation counters for loader invocations and handle disposals. -/
structure ServerState where
  active_model : Option Nat
  active_model_name : Option String
  last_access_time : Nat
  loads : Nat
  disposes : Nat
  deriving Repr, DecidableEq

/-- Initial global state: `active_model = None`, `active_model_name = None`,
`last_access_time = 0` (lines 48-50). -/
def initState : ServerState :=
  { active_model := none, active_model_name := none, last_access_time := 0,
    loads := 0, disposes := 0 }

/-- Embedding of `unload_model` (server.py lines 52-83).  If a model is
active, the handle is deleted and both slot fields are set to `None`
(lines 65-67; `del` cannot itself raise into the caller, destructor errors
being suppressed by Python); afterwards `gc.collect()` and the CUDA
cache-clearing calls run, and only those may raise — after the slot was
already cleared.  `cudaCleanupOk` says whether they succeed. -/
def unload_model (cudaCleanupOk : Bool) (s : ServerState) :
    Outcome Unit × ServerState :=
  match s.active_model with
  | none => (.ok (), s)
  | some _ =>
    let s1 : ServerState :=
      { s with active_model := none, active_model_name := none,
               disposes := s.disposes + 1 }
    if cudaCleanupOk then (.ok (), s1)
    else (.exc (.disposalError "cuda cleanup failed"), s1)

/-- Embedding of `get_or_load_model` (server.py lines 85-118).
Order of effects, exactly as in the source:
1. `last_access_time = time.time()` (line 94) — unconditionally first.
2. Hit check (line 96): if `active_model_name == target` and
   `active_model is not None`, return the resident handle.
3. Otherwise, if a model is active, `unload_model()` (lines 99-101).
4. `model_id = MODELS[target]` (line 105) — raises `KeyError` when the
   key is not configured; the `except` block re-raises it (line 118).
5. `Qwen3TTSModel.from_pretrained(model_id, ...)` (line 106) — on failure
   the exception is logged and re-raised, the slot stays as it was.
6. On success, `active_model` and `active_model_name` are set (112-113)
   and the handle returned. -/
def get_or_load_model (models : List (String × String))
    (loadFn : String → Except PyErr Nat) (cudaCleanupOk : Bool)
    (now : Nat) (target_model_name : String) (s : ServerState) :
    Outcome Nat × ServerState :=
  let s1 : ServerState := { s with last_access_time := now }
  match s1.active_model with
  | some m =>
    if s1.active_model_name = some target_model_name then
      (.ok m, s1)
    else
      match unload_model cudaCleanupOk s1 with
      | (.exc e, s2) => (.exc e, s2)
      | (.ok _, s2) =>
        match models.lookup target_model_name with
        | none => (.exc (.keyError target_model_name), s2)
        | some model_id =>
          let s3 : ServerState := { s2 with loads := s2.loads + 1 }
          match loadFn model_id with
          | .error e => (.exc e, s3)
          | .ok model =>
            (.ok model,
             { s3 with active_model := some model,
                       active_model_name := some target_model_name })
  | none =>
    match models.lookup target_model_name with
    | none => (.exc (.keyError target_model_name), s1)
    | some model_id =>
      let s3 : ServerState := { s1 with loads := s1.loads + 1 }
      match loadFn model_id with
      | .error e => (.exc e, s3)
      | .ok model =>
        (.ok model,
         { s3 with active_model := some model,
                   active_model_name := some target_model_name })

/-- Embedding of one iteration of the `while True` body of
`inactivity_monitor` (server.py lines 124-130), performed at time `now`
with the configured `UNLOAD_TIMEOUT`.  An `.exc` outcome means the
exception escaped the loop body; since the loop has no `try`/`except`, an
escaped exception terminates the monitor task.  `time.time() -
last_access_time` is truncated subtraction, faithful because the code only
asks whether the difference exceeds the (non-negative) timeout. -/
def monitor_tick (timeout : Nat) (cudaCleanupOk : Bool) (now : Nat)
    (s : ServerState) : Outcome Unit × ServerState :=
  match s.active_model with
  | none => (.ok (), s)
  | some _ =>
    if now - s.last_access_time > timeout then
      unload_model cudaCleanupOk s
    else
      (.ok (), s)

/-- The slot-population invariant claimed by the spec: the handle is
`None` iff the key is `None`. -/
def SlotInv (s : ServerState) : Prop :=
  s.active_model = none ↔ s.active_model_name = none

instance (s : ServerState) : Decidable (SlotInv s) := by
  unfold SlotInv; infer_instance

/-- Folding a sequence of acquisitions of the same key over the state, one
per timestamp in the list (used for the claims counting load calls across
N consecutive acquisitions). -/
def acquireSeq (models : List (String × String))
    (loadFn : String → Except PyErr Nat) (cudaCleanupOk : Bool)
    (key : String) : List Nat → ServerState → ServerState
  | [], s => s
  | now :: rest, s =>
    acquireSeq models loadFn cudaCleanupOk key rest
      (get_or_load_model models loadFn cudaCleanupOk now key s).2

/-- Python values flowing through `process_audio_output`: dicts, tuples,
lists, torch tensors, numpy arrays (shape plus flat data) and ints.
Sample data are integers (the claims never inspect sample values). -/
inductive PyVal where
  | dict (entries : List (String × PyVal))
  | tup (elems : List PyVal)
  | list (elems : List PyVal)
  | tensor (data : List Int)
  | ndarray (shape : List Nat) (data : List Int)
  | intV (n : Int)
  deriving Repr

/-- Name `type(v)` prints for a `PyVal`, used in the `TypeError` message
of `process_audio_output`. -/
def pyTypeName : PyVal → String
  | .dict _ => "dict"
  | .tup _ => "tuple"
  | .list _ => "list"
  | .tensor _ => "Tensor"
  | .ndarray _ _ => "ndarray"
  | .intV _ => "int"

/-- Python `int(v)`; the sample rates the code handles are ints (a
non-numeric value would raise, embedded as `TypeError`). -/
def pyToInt : PyVal → Except PyErr Int
  | .intV n => .ok n
  | v => .error (.typeError ("int() argument: " ++ pyTypeName v))

/-- The conversion steps `process_audio_output` applies to the chosen
audio value on every branch (server.py lines 157-162): convert a torch
tensor to a numpy array (157-158) and squeeze extra dimensions of a
multi-dimensional array (161-162; numpy `squeeze` drops all axes of
size 1). -/
def convertSqueeze (audio1 : PyVal) : PyVal :=
  let audio2 : PyVal :=
    match audio1 with
    | .tensor data => .ndarray [data.length] data
    | other => other
  match audio2 with
  | .ndarray shape data =>
    if shape.length > 1 then .ndarray (shape.filter (· ≠ 1)) data
    else .ndarray shape data
  | other => other

/-- Audio normalization of the tuple/list branch: the unwrap of a
non-empty Python list (server.py lines 149-151, performed only inside the
tuple/list elif) followed by the `convertSqueeze` steps that every branch
performs. -/
def normalizeAudio (audio0 : PyVal) : PyVal :=
  convertSqueeze
    (match audio0 with
     | .list (x :: _) => x
     | other => other)

/-- Combination of `normalizeAudio` with the final
`return audio_data, int(sample_rate)` of `process_audio_output` for the
tuple/list branch; only the `int(...)` conversion can raise, the
normalization steps are total. -/
def finishAudio (audio0 sr : PyVal) : Except PyErr (PyVal × Int) := do
  let rate ← pyToInt sr
  .ok (normalizeAudio audio0, rate)

/-- The tuple/list branch of `process_audio_output` (server.py lines
142-151): `audio_data = outputs[0]` (IndexError on an empty sequence),
`sample_rate = outputs[1] if len(outputs) > 1 else 12000`. -/
def seqBranch (elems : List PyVal) : Except PyErr (PyVal × Int) :=
  match elems with
  | [] => .error .indexError
  | a :: rest =>
    let sr : PyVal := match rest with
      | [] => .intV 12000
      | b :: _ => b
    finishAudio a sr

/-- Embedding of `process_audio_output` (server.py lines 132-168).
A dict reads keys `"audio"` and `"sample_rate"` (KeyError when absent); a
tuple or list goes through `seqBranch`; anything else raises `TypeError`
naming the offending type (lines 152-154). -/
def process_audio_output (outputs : PyVal) : Except PyErr (PyVal × Int) :=
  match outputs with
  | .dict entries =>
    match entries.lookup "audio" with
    | none => .error (.keyError "audio")
    | some audio =>
      match entries.lookup "sample_rate" with
      | none => .error (.keyError "sample_rate")
      | some sr =>
        match pyToInt sr with
        | .error e => .error e
        | .ok rate => .ok (convertSqueeze audio, rate)
  | .tup elems => seqBranch elems
  | .list elems => seqBranch elems
  | other =>
    .error (.typeError
      ("Model returned unexpected output type: " ++ pyTypeName other))

/-- HTTP-level result of one endpoint handler: a served audio file, a
raised `HTTPException(status, detail)`, or an exception that escaped the
handler uncaught (FastAPI then yields its generic 500 response whose body
does not carry the error text). -/
inductive EndpointResult where
  | fileResponse (filename media download : String)
  | httpError (status : Nat) (detail : String)
  | uncaught (e : PyErr)
  deriving Repr, DecidableEq

/-- Embedding of the `POST /voice-design` handler (server.py lines
174-194).  `get_or_load_model("1.7b-design")` runs OUTSIDE the
`try` block (line 180), so its exceptions escape the handler; the `try`
covers generation, `process_audio_output` and the file write, and its
`except` raises `HTTPException(500, str(e))`.  `genResult` is the outcome
of the opaque `model.generate_voice_design(...)` call; the `sf.write`
file write is modelled as succeeding. -/
def voice_design (models : List (String × String))
    (loadFn : String → Except PyErr Nat) (cudaCleanupOk : Bool) (now : Nat)
    (genResult : Except PyErr PyVal) (s : ServerState) :
    EndpointResult × ServerState :=
  match get_or_load_model models loadFn cudaCleanupOk now "1.7b-design" s with
  | (.exc e, s1) => (.uncaught e, s1)
  | (.ok _, s1) =>
    match genResult with
    | .error e => (.httpError 500 (strOfErr e), s1)
    | .ok outputs =>
      match process_audio_output outputs with
      | .error e => (.httpError 500 (strOfErr e), s1)
      | .ok _ =>
        (.fileResponse "output_design.wav" "audio/wav" "design_output.wav", s1)

/-- Embedding of the `POST /custom-voice` handler (server.py lines
196-223).  The key is `model_size ++ "-custom"`; an unconfigured key is
rejected with HTTP 400 before the manager is touched.  As in
`voice_design`, `get_or_load_model` runs outside the `try` and only the
generation phase maps failures to `HTTPException(500, str(e))`. -/
def custom_voice (models : List (String × String))
    (loadFn : String → Except PyErr Nat) (cudaCleanupOk : Bool) (now : Nat)
    (model_size : String) (genResult : Except PyErr PyVal)
    (s : ServerState) : EndpointResult × ServerState :=
  let model_name := model_size ++ "-custom"
  match models.lookup model_name with
  | none => (.httpError 400 "Invalid model size for custom voice.", s)
  | some _ =>
    match get_or_load_model models loadFn cudaCleanupOk now model_name s with
    | (.exc e, s1) => (.uncaught e, s1)
    | (.ok _, s1) =>
      match genResult with
      | .error e => (.httpError 500 (strOfErr e), s1)
      | .ok outputs =>
        match process_audio_output outputs with
        | .error e => (.httpError 500 (strOfErr e), s1)
        | .ok _ =>
          (.fileResponse "output_custom.wav" "audio/wav" "custom_output.wav",
           s1)

/-- Embedding of the `POST /voice-clone` handler (server.py lines
225-260).  The key is `model_size ++ "-clone"`; an unconfigured key is
rejected with HTTP 400.  `get_or_load_model` runs outside the `try`
(line 237); the staging of the uploaded reference audio to a temporary
file and its removal in `finally` are filesystem effects outside the
embedded state. -/
def voice_clone (models : List (String × String))
    (loadFn : String → Except PyErr Nat) (cudaCleanupOk : Bool) (now : Nat)
    (model_size : String) (genResult : Except PyErr PyVal)
    (s : ServerState) : EndpointResult × ServerState :=
  let model_name := model_size ++ "-clone"
  match models.lookup model_name with
  | none => (.httpError 400 "Invalid model size for voice cloning.", s)
  | some _ =>
    match get_or_load_model models loadFn cudaCleanupOk now model_name s with
    | (.exc e, s1) => (.uncaught e, s1)
    | (.ok _, s1) =>
      match genResult with
      | .error e => (.httpError 500 (strOfErr e), s1)
      | .ok outputs =>
        match process_audio_output outputs with
        | .error e => (.httpError 500 (strOfErr e), s1)
        | .ok _ =>
          (.fileResponse "output_clone.wav" "audio/wav" "cloned_output.wav",
           s1)

lemma unload_noop (cudaCleanupOk : Bool) (s : ServerState)
    (hm : s.active_model = none) :
    unload_model cudaCleanupOk s = (.ok (), s) := by
  simp [unload_model, hm]

lemma unload_clears (cudaCleanupOk : Bool) (s : ServerState) (m : Nat)
    (hm : s.active_model = some m) :
    (unload_model cudaCleanupOk s).2 =
      { s with active_model := none, active_model_name := none,
               disposes := s.disposes + 1 } := by
  cases cudaCleanupOk <;> simp [unload_model, hm]

lemma get_hit (models : List (String × String))
    (loadFn : String → Except PyErr Nat) (cudaCleanupOk : Bool)
    (now : Nat) (key : String) (s : ServerState) (m : Nat)
    (hm : s.active_model = some m) (hn : s.active_model_name = some key) :
    get_or_load_model models loadFn cudaCleanupOk now key s =
      (.ok m, { s with last_access_time := now }) := by
  simp [get_or_load_model, hm, hn]

lemma get_swap_ok (models : List (String × String))
    (loadFn : String → Except PyErr Nat) (now : Nat) (key : String)
    (s : ServerState) (m : Nat) (model_id : String) (h : Nat)
    (hm : s.active_model = some m) (hn : s.active_model_name ≠ some key)
    (hk : models.lookup key = some model_id) (hl : loadFn model_id = .ok h) :
    get_or_load_model models loadFn true now key s =
      (.ok h,
       { active_model := some h, active_model_name := some key,
         last_access_time := now, loads := s.loads + 1,
         disposes := s.disposes + 1 }) := by
  simp [get_or_load_model, unload_model, hm, hn, hk, hl]

lemma get_swap_load_fail (models : List (String × String))
    (loadFn : String → Except PyErr Nat) (now : Nat) (key : String)
    (s : ServerState) (m : Nat) (model_id : String) (e : PyErr)
    (hm : s.active_model = some m) (hn : s.active_model_name ≠ some key)
    (hk : models.lookup key = some model_id)
    (hl : loadFn model_id = .error e) :
    get_or_load_model models loadFn true now key s =
      (.exc e,
       { active_model := none, active_model_name := none,
         last_access_time := now, loads := s.loads + 1,
         disposes := s.disposes + 1 }) := by
  simp [get_or_load_model, unload_model, hm, hn, hk, hl]

lemma get_swap_unknown (models : List (String × String))
    (loadFn : String → Except PyErr Nat) (now : Nat) (key : String)
    (s : ServerState) (m : Nat)
    (hm : s.active_model = some m) (hn : s.active_model_name ≠ some key)
    (hk : models.lookup key = none) :
    get_or_load_model models loadFn true now key s =
      (.exc (.keyError key),
       { active_model := none, active_model_name := none,
         last_access_time := now, loads := s.loads,
         disposes := s.disposes + 1 }) := by
  simp [get_or_load_model, unload_model, hm, hn, hk]

lemma get_swap_dispose_fail (models : List (String × String))
    (loadFn : String → Except PyErr Nat) (now : Nat) (key : String)
    (s : ServerState) (m : Nat)
    (hm : s.active_model = some m) (hn : s.active_model_name ≠ some key) :
    get_or_load_model models loadFn false now key s =
      (.exc (.disposalError "cuda cleanup failed"),
       { active_model := none, active_model_name := none,
         last_access_time := now, loads := s.loads,
         disposes := s.disposes + 1 }) := by
  simp [get_or_load_model, unload_model, hm, hn]

lemma get_empty_ok (models : List (String × String))
    (loadFn : String → Except PyErr Nat) (cudaCleanupOk : Bool)
    (now : Nat) (key : String) (s : ServerState) (model_id : String)
    (h : Nat) (hm : s.active_model = none)
    (hk : models.lookup key = some model_id) (hl : loadFn model_id = .ok h) :
    get_or_load_model models loadFn cudaCleanupOk now key s =
      (.ok h,
       { active_model := some h, active_model_name := some key,
         last_access_time := now, loads := s.loads + 1,
         disposes := s.disposes }) := by
  simp [get_or_load_model, hm, hk, hl]

lemma get_empty_load_fail (models : List (String × String))
    (loadFn : String → Except PyErr Nat) (cudaCleanupOk : Bool)
    (now : Nat) (key : String) (s : ServerState) (model_id : String)
    (e : PyErr) (hm : s.active_model = none)
    (hk : models.lookup key = some model_id)
    (hl : loadFn model_id = .error e) :
    get_or_load_model models loadFn cudaCleanupOk now key s =
      (.exc e,
       { active_model := none, active_model_name := s.active_model_name,
         last_access_time := now, loads := s.loads + 1,
         disposes := s.disposes }) := by
  simp [get_or_load_model, hm, hk, hl]

lemma get_empty_unknown (models : List (String × String))
    (loadFn : String → Except PyErr Nat) (cudaCleanupOk : Bool)
    (now : Nat) (key : String) (s : ServerState) (hm : s.active_model = none)
    (hk : models.lookup key = none) :
    get_or_load_model models loadFn cudaCleanupOk now key s =
      (.exc (.keyError key), { s with last_access_time := now }) := by
  simp [get_or_load_model, hm, hk]

lemma slotInv_unload (cudaCleanupOk : Bool) (s : ServerState)
    (hs : SlotInv s) : SlotInv (unload_model cudaCleanupOk s).2 := by
  cases hm : s.active_model with
  | none => rw [unload_noop cudaCleanupOk s hm]; exact hs
  | some m => rw [unload_clears cudaCleanupOk s m hm]; simp [SlotInv]

lemma slotInv_get (models : List (String × String))
    (loadFn : String → Except PyErr Nat) (cudaCleanupOk : Bool)
    (now : Nat) (key : String) (s : ServerState) (hs : SlotInv s) :
    SlotInv (get_or_load_model models loadFn cudaCleanupOk now key s).2 := by
  cases hm : s.active_model with
  | some m =>
    by_cases hn : s.active_model_name = some key
    · rw [get_hit models loadFn cudaCleanupOk now key s m hm hn]
      simp [SlotInv, hm, hn]
    · cases cudaCleanupOk with
      | false =>
        rw [get_swap_dispose_fail models loadFn now key s m hm hn]
        simp [SlotInv]
      | true =>
        cases hk : models.lookup key with
        | none =>
          rw [get_swap_unknown models loadFn now key s m hm hn hk]
          simp [SlotInv]
        | some model_id =>
          cases hl : loadFn model_id with
          | error e =>
            rw [get_swap_load_fail models loadFn now key s m model_id e hm hn
                  hk hl]
            simp [SlotInv]
          | ok h =>
            rw [get_swap_ok models loadFn now key s m model_id h hm hn hk hl]
            simp [SlotInv]
  | none =>
    have hn : s.active_model_name = none := Iff.mp hs hm
    cases hk : models.lookup key with
    | none =>
      rw [get_empty_unknown models loadFn cudaCleanupOk now key s hm hk]
      simp [SlotInv, hm, hn]
    | some model_id =>
      cases hl : loadFn model_id with
      | error e =>
        rw [get_empty_load_fail models loadFn cudaCleanupOk now key s model_id
              e hm hk hl]
        simp [SlotInv, hn]
      | ok h =>
        rw [get_empty_ok models loadFn cudaCleanupOk now key s model_id h hm
              hk hl]
        simp [SlotInv]

lemma slotInv_tick (timeout : Nat) (cudaCleanupOk : Bool) (now : Nat)
    (s : ServerState) (hs : SlotInv s) :
    SlotInv (monitor_tick timeout cudaCleanupOk now s).2 := by
  cases hm : s.active_model with
  | none => simp [monitor_tick, hm]; exact hs
  | some m =>
    by_cases hidle : now - s.last_access_time > timeout
    · simp only [monitor_tick, hm, if_pos hidle]
      exact slotInv_unload cudaCleanupOk s hs
    · simp only [monitor_tick, hm, if_neg hidle]
      exact hs

lemma get_ok_resident (models : List (String × String))
    (loadFn : String → Except PyErr Nat) (cudaCleanupOk : Bool)
    (now : Nat) (key : String) (s : ServerState) (h : Nat)
    (s1 : ServerState)
    (heq : get_or_load_model models loadFn cudaCleanupOk now key s =
             (.ok h, s1)) :
    s1.active_model = some h ∧ s1.active_model_name = some key := by
  cases hm : s.active_model with
  | some m =>
    by_cases hn : s.active_model_name = some key
    · rw [get_hit models loadFn cudaCleanupOk now key s m hm hn] at heq
      simp only [Prod.mk.injEq, Outcome.ok.injEq] at heq
      obtain ⟨hh, hs1⟩ := heq
      subst hs1; subst hh
      simp [hm, hn]
    · cases cudaCleanupOk with
      | false =>
        rw [get_swap_dispose_fail models loadFn now key s m hm hn] at heq
        simp at heq
      | true =>
        cases hk : models.lookup key with
        | none =>
          rw [get_swap_unknown models loadFn now key s m hm hn hk] at heq
          simp at heq
        | some model_id =>
          cases hl : loadFn model_id with
          | error e =>
            rw [get_swap_load_fail models loadFn now key s m model_id e hm hn
                  hk hl] at heq
            simp at heq
          | ok hh =>
            rw [get_swap_ok models loadFn now key s m model_id hh hm hn hk
                  hl] at heq
            simp only [Prod.mk.injEq, Outcome.ok.injEq] at heq
            obtain ⟨hval, hs1⟩ := heq
            subst hs1; subst hval
            simp
  | none =>
    cases hk : models.lookup key with
    | none =>
      rw [get_empty_unknown models loadFn cudaCleanupOk now key s hm hk] at heq
      simp at heq
    | some model_id =>
      cases hl : loadFn model_id with
      | error e =>
        rw [get_empty_load_fail models loadFn cudaCleanupOk now key s model_id
              e hm hk hl] at heq
        simp at heq
      | ok hh =>
        rw [get_empty_ok models loadFn cudaCleanupOk now key s model_id hh hm
              hk hl] at heq
        simp only [Prod.mk.injEq, Outcome.ok.injEq] at heq
        obtain ⟨hval, hs1⟩ := heq
        subst hs1; subst hval
        simp

lemma acquireSeq_hit (models : List (String × String))
    (loadFn : String → Except PyErr Nat) (cudaCleanupOk : Bool)
    (key : String) (H : Nat) :
    ∀ (nows : List Nat) (s : ServerState), s.active_model = some H →
      s.active_model_name = some key →
      (acquireSeq models loadFn cudaCleanupOk key nows s).active_model =
          some H ∧
      (acquireSeq models loadFn cudaCleanupOk key nows s).active_model_name =
          some key ∧
      (acquireSeq models loadFn cudaCleanupOk key nows s).loads = s.loads ∧
      (acquireSeq models loadFn cudaCleanupOk key nows s).disposes =
          s.disposes := by
  intro nows
  induction nows with
  | nil => intro s hm hn; simp [acquireSeq]; exact ⟨hm, hn⟩
  | cons now rest ih =>
    intro s hm hn
    simp only [acquireSeq]
    rw [get_hit models loadFn cudaCleanupOk now key s H hm hn]
    have hrec := ih { s with last_access_time := now } (by simpa using hm)
      (by simpa using hn)
    simpa using hrec

/-- C1: in every reachable state of the manager the Resident Slot is
never partially populated — `active_model` is `None` iff
`active_model_name` is `None`.  The invariant holds initially and is
preserved by `unload_model`, by every `get_or_load_model` acquisition
(any key, any loader outcome, any disposal outcome) and by every sweeper
tick; and two acquisitions for two distinct keys never result in two
simultaneously loaded handles: once the second acquisition succeeds, the
slot holds exactly the second key and its handle, and the first key is no
longer resident. -/
theorem C1_slot_never_partially_populated :
    SlotInv initState
  ∧ (∀ (cudaCleanupOk : Bool) (s : ServerState), SlotInv s →
      SlotInv (unload_model cudaCleanupOk s).2)
  ∧ (∀ (models : List (String × String))
      (loadFn : String → Except PyErr Nat) (cudaCleanupOk : Bool)
      (now : Nat) (key : String) (s : ServerState), SlotInv s →
      SlotInv (get_or_load_model models loadFn cudaCleanupOk now key s).2)
  ∧ (∀ (timeout : Nat) (cudaCleanupOk : Bool) (now : Nat)
      (s : ServerState), SlotInv s →
      SlotInv (monitor_tick timeout cudaCleanupOk now s).2)
  ∧ (∀ (models : List (String × String))
      (loadFn : String → Except PyErr Nat) (c1 c2 : Bool)
      (now1 now2 : Nat) (keyA keyB : String) (s sA sB : ServerState)
      (rA : Outcome Nat) (hB : Nat),
      keyA ≠ keyB →
      get_or_load_model models loadFn c1 now1 keyA s = (rA, sA) →
      get_or_load_model models loadFn c2 now2 keyB sA = (.ok hB, sB) →
      sB.active_model = some hB ∧ sB.active_model_name = some keyB ∧
        sB.active_model_name ≠ some keyA) := by
  refine ⟨by simp [SlotInv, initState], slotInv_unload, slotInv_get,
    slotInv_tick, ?_⟩
  intro models loadFn c1 c2 now1 now2 keyA keyB s sA sB rA hB hne h1 h2
  obtain ⟨hm, hn⟩ := get_ok_resident models loadFn c2 now2 keyB sA hB sB h2
  refine ⟨hm, hn, ?_⟩
  rw [hn]
  exact fun hcon => (Ne.symm hne) (Option.some.inj hcon)

/-- Witness for C1: two concrete acquisitions for the distinct keys
`"a"` then `"b"` leave only `"b"` resident. -/
theorem C1_witness :
    (⟨some 8, some "b", 2, 2, 1⟩ : ServerState).active_model = some 8 ∧
    (⟨some 8, some "b", 2, 2, 1⟩ : ServerState).active_model_name =
        some "b" ∧
    (⟨some 8, some "b", 2, 2, 1⟩ : ServerState).active_model_name ≠
        some "a" :=
  C1_slot_never_partially_populated.2.2.2.2
    [("a", "ida"), ("b", "idb")]
    (fun mid => if mid = "ida" then .ok 7 else .ok 8) true true 1 2 "a" "b"
    initState ⟨some 7, some "a", 1, 1, 0⟩ ⟨some 8, some "b", 2, 2, 1⟩
    (.ok 7) 8 (by decide) (by decide) (by decide)

/-- Counterexample to C2: with model `"a"` resident (handle 1, timestamp
5), acquiring the unknown key `"bogus"` raises `KeyError` but does NOT
leave the slot as it was: `last_access_time` is overwritten with the
current time and the resident is unloaded, leaving the slot empty. -/
theorem C2_counterexample :
    get_or_load_model [("a", "ida")] (fun _ => .ok 7) true 99 "bogus"
        ⟨some 1, some "a", 5, 1, 0⟩ =
      (.exc (.keyError "bogus"), ⟨none, none, 99, 1, 1⟩) ∧
    (⟨none, none, 99, 1, 1⟩ : ServerState) ≠
      ⟨some 1, some "a", 5, 1, 0⟩ := by
  exact ⟨by decide, by decide⟩

/-- C2 (amended): acquiring a key with no configured loader raises
`KeyError` (the `UnknownResourceError`) and never invokes the loader
(`loads` unchanged), but it does mutate the slot state: it first sets
`last_access_time` to now, and if a different model is resident it
disposes it, so the acquisition always ends with an empty slot and an
updated timestamp. -/
theorem C2_unknown_key_amended (models : List (String × String))
    (loadFn : String → Except PyErr Nat) (now : Nat) (key : String)
    (s : ServerState) (hs : SlotInv s) (hk : models.lookup key = none)
    (hn : s.active_model_name ≠ some key) :
    (get_or_load_model models loadFn true now key s).1 =
        .exc (.keyError key) ∧
    (get_or_load_model models loadFn true now key s).2.active_model =
        none ∧
    (get_or_load_model models loadFn true now key s).2.active_model_name =
        none ∧
    (get_or_load_model models loadFn true now key s).2.last_access_time =
        now ∧
    (get_or_load_model models loadFn true now key s).2.loads = s.loads ∧
    (get_or_load_model models loadFn true now key s).2.disposes =
        (if s.active_model = none then s.disposes else s.disposes + 1) := by
  cases hm : s.active_model with
  | none =>
    have hname : s.active_model_name = none := Iff.mp hs hm
    rw [get_empty_unknown models loadFn true now key s hm hk]
    simp [hm, hname]
  | some m =>
    rw [get_swap_unknown models loadFn now key s m hm hn hk]
    simp [hm]

/-- Witness for the amended C2, at the counterexample's concrete input. -/
theorem C2_witness :
    (get_or_load_model [("a", "ida")] (fun _ => .ok 7) true 99 "bogus"
        ⟨some 1, some "a", 5, 1, 0⟩).1 = .exc (.keyError "bogus") ∧
    (get_or_load_model [("a", "ida")] (fun _ => .ok 7) true 99 "bogus"
        ⟨some 1, some "a", 5, 1, 0⟩).2.active_model = none ∧
    (get_or_load_model [("a", "ida")] (fun _ => .ok 7) true 99 "bogus"
        ⟨some 1, some "a", 5, 1, 0⟩).2.active_model_name = none ∧
    (get_or_load_model [("a", "ida")] (fun _ => .ok 7) true 99 "bogus"
        ⟨some 1, some "a", 5, 1, 0⟩).2.last_access_time = 99 ∧
    (get_or_load_model [("a", "ida")] (fun _ => .ok 7) true 99 "bogus"
        ⟨some 1, some "a", 5, 1, 0⟩).2.loads = 1 ∧
    (get_or_load_model [("a", "ida")] (fun _ => .ok 7) true 99 "bogus"
        ⟨some 1, some "a", 5, 1, 0⟩).2.disposes =
      (if (⟨some 1, some "a", 5, 1, 0⟩ : ServerState).active_model = none
       then 0 else 0 + 1) :=
  C2_unknown_key_amended [("a", "ida")] (fun _ => .ok 7) 99 "bogus"
    ⟨some 1, some "a", 5, 1, 0⟩ (by decide) (by decide) (by decide)

/-- C3: a load that fails while the slot is empty propagates the loader's
exception, leaves the slot empty (no key, no handle), and does not cache
the key as broken: the failed attempt invoked the loader once, and a
subsequent acquisition of the same key invokes it again. -/
theorem C3_load_failure_leaves_slot_empty (models : List (String × String))
    (loadFn : String → Except PyErr Nat) (cudaCleanupOk : Bool)
    (now now2 : Nat) (key model_id : String) (e : PyErr) (s : ServerState)
    (hm : s.active_model = none) (hn : s.active_model_name = none)
    (hk : models.lookup key = some model_id)
    (hl : loadFn model_id = .error e) :
    (get_or_load_model models loadFn cudaCleanupOk now key s).1 = .exc e ∧
    (get_or_load_model models loadFn cudaCleanupOk now key s).2.active_model =
        none ∧
    (get_or_load_model models loadFn cudaCleanupOk now key
        s).2.active_model_name = none ∧
    (get_or_load_model models loadFn cudaCleanupOk now key s).2.loads =
        s.loads + 1 ∧
    (get_or_load_model models loadFn cudaCleanupOk now2 key
        (get_or_load_model models loadFn cudaCleanupOk now key
          s).2).2.loads = s.loads + 2 := by
  rw [get_empty_load_fail models loadFn cudaCleanupOk now key s model_id e hm
        hk hl]
  refine ⟨rfl, rfl, hn, rfl, ?_⟩
  rw [get_empty_load_fail models loadFn cudaCleanupOk now2 key _ model_id e
        rfl hk hl]

/-- Witness for C3: a loader that always fails, attempted twice on the
empty initial state, counts two loader invocations and never populates
the slot. -/
theorem C3_witness :
    (get_or_load_model [("a", "ida")] (fun _ => .error (.loadError "oom"))
        true 3 "a" initState).1 = .exc (.loadError "oom") ∧
    (get_or_load_model [("a", "ida")] (fun _ => .error (.loadError "oom"))
        true 3 "a" initState).2.active_model = none ∧
    (get_or_load_model [("a", "ida")] (fun _ => .error (.loadError "oom"))
        true 3 "a" initState).2.active_model_name = none ∧
    (get_or_load_model [("a", "ida")] (fun _ => .error (.loadError "oom"))
        true 3 "a" initState).2.loads = initState.loads + 1 ∧
    (get_or_load_model [("a", "ida")] (fun _ => .error (.loadError "oom"))
        true 4 "a"
        (get_or_load_model [("a", "ida")]
          (fun _ => .error (.loadError "oom")) true 3 "a"
          initState).2).2.loads = initState.loads + 2 :=
  C3_load_failure_leaves_slot_empty [("a", "ida")]
    (fun _ => .error (.loadError "oom")) true 3 4 "a" "ida"
    (.loadError "oom") initState (by decide) (by decide) (by decide) rfl

/-- C4: when the slot is populated with key K and handle H, acquiring K
returns H and only updates `last_access_time` to now — no load and no
dispose (both counters unchanged); consequently, starting from an empty
slot, N consecutive acquisitions of K (one load followed by hits) invoke
the loader exactly once in total. -/
theorem C4_hit_reuses_handle :
    (∀ (models : List (String × String))
        (loadFn : String → Except PyErr Nat) (cudaCleanupOk : Bool)
        (now : Nat) (key : String) (H : Nat) (s : ServerState),
        s.active_model = some H → s.active_model_name = some key →
        get_or_load_model models loadFn cudaCleanupOk now key s =
          (.ok H, { s with last_access_time := now }))
  ∧ (∀ (models : List (String × String))
        (loadFn : String → Except PyErr Nat) (cudaCleanupOk : Bool)
        (key : String) (H : Nat) (s : ServerState) (nows : List Nat),
        s.active_model = some H → s.active_model_name = some key →
        (acquireSeq models loadFn cudaCleanupOk key nows s).loads =
            s.loads ∧
        (acquireSeq models loadFn cudaCleanupOk key nows s).disposes =
            s.disposes ∧
        (acquireSeq models loadFn cudaCleanupOk key nows s).active_model =
            some H)
  ∧ (∀ (models : List (String × String))
        (loadFn : String → Except PyErr Nat) (cudaCleanupOk : Bool)
        (key model_id : String) (H : Nat) (s : ServerState) (now : Nat)
        (nows : List Nat),
        s.active_model = none → models.lookup key = some model_id →
        loadFn model_id = .ok H →
        (acquireSeq models loadFn cudaCleanupOk key (now :: nows) s).loads =
            s.loads + 1 ∧
        (acquireSeq models loadFn cudaCleanupOk key (now :: nows)
            s).active_model = some H) := by
  refine ⟨?_, ?_, ?_⟩
  · intro models loadFn cudaCleanupOk now key H s hm hn
    exact get_hit models loadFn cudaCleanupOk now key s H hm hn
  · intro models loadFn cudaCleanupOk key H s nows hm hn
    obtain ⟨h1, h2, h3, h4⟩ :=
      acquireSeq_hit models loadFn cudaCleanupOk key H nows s hm hn
    exact ⟨h3, h4, h1⟩
  · intro models loadFn cudaCleanupOk key model_id H s now nows hm hk hl
    simp only [acquireSeq]
    rw [get_empty_ok models loadFn cudaCleanupOk now key s model_id H hm hk
          hl]
    obtain ⟨h1, h2, h3, h4⟩ :=
      acquireSeq_hit models loadFn cudaCleanupOk key H nows
        { active_model := some H, active_model_name := some key,
          last_access_time := now, loads := s.loads + 1,
          disposes := s.disposes } rfl rfl
    exact ⟨h3, h1⟩

/-- Witness for C4: three consecutive acquisitions of `"a"` from the
empty initial state count exactly one loader invocation and keep handle 7
resident. -/
theorem C4_witness :
    (acquireSeq [("a", "ida")] (fun _ => .ok 7) true "a" (1 :: [2, 3])
        initState).loads = initState.loads + 1 ∧
    (acquireSeq [("a", "ida")] (fun _ => .ok 7) true "a" (1 :: [2, 3])
        initState).active_model = some 7 :=
  C4_hit_reuses_handle.2.2 [("a", "ida")] (fun _ => .ok 7) true "a" "ida" 7
    initState 1 [2, 3] (by decide) (by decide) rfl

/-- C5: acquiring key B while a different key A is resident with handle
hA disposes hA exactly once (`disposes` rises by one) and clears the slot
before B's load begins (the embedded unload step that the swap performs
leaves both slot fields `None`); when B's load succeeds the slot
afterwards holds exactly (B, hB, now) and hB is returned. -/
theorem C5_swap_correctness (models : List (String × String))
    (loadFn : String → Except PyErr Nat) (now : Nat) (A B model_id : String)
    (hA hB : Nat) (s : ServerState)
    (hm : s.active_model = some hA) (hn : s.active_model_name = some A)
    (hAB : A ≠ B) (hk : models.lookup B = some model_id)
    (hl : loadFn model_id = .ok hB) :
    (unload_model true { s with last_access_time := now }).2.active_model =
        none ∧
    (unload_model true
        { s with last_access_time := now }).2.active_model_name = none ∧
    get_or_load_model models loadFn true now B s =
      (.ok hB,
       { active_model := some hB, active_model_name := some B,
         last_access_time := now, loads := s.loads + 1,
         disposes := s.disposes + 1 }) := by
  have hm' : ({ s with last_access_time := now } : ServerState).active_model
      = some hA := by simpa using hm
  have hn' : s.active_model_name ≠ some B := by
    rw [hn]; exact fun hcon => hAB (Option.some.inj hcon)
  rw [unload_clears true { s with last_access_time := now } hA hm']
  refine ⟨rfl, rfl, ?_⟩
  exact get_swap_ok models loadFn now B s hA model_id hB hm hn' hk hl

/-- Witness for C5: with `"a"` resident (handle 7), acquiring `"b"`
disposes once and swaps in handle 9. -/
theorem C5_witness :
    (unload_model true
        ({ (⟨some 7, some "a", 1, 1, 0⟩ : ServerState) with
           last_access_time := 5 })).2.active_model = none ∧
    (unload_model true
        ({ (⟨some 7, some "a", 1, 1, 0⟩ : ServerState) with
           last_access_time := 5 })).2.active_model_name = none ∧
    get_or_load_model [("a", "ida"), ("b", "idb")]
        (fun mid => if mid = "idb" then .ok 9 else .ok 7) true 5 "b"
        ⟨some 7, some "a", 1, 1, 0⟩ =
      (.ok 9,
       { active_model := some 9, active_model_name := some "b",
         last_access_time := 5, loads := 1 + 1, disposes := 0 + 1 }) :=
  C5_swap_correctness [("a", "ida"), ("b", "idb")]
    (fun mid => if mid = "idb" then .ok 9 else .ok 7) 5 "a" "b" "idb" 7 9
    ⟨some 7, some "a", 1, 1, 0⟩ (by decide) (by decide) (by decide)
    (by decide) (by simp)

/-- C6: a sweeper tick evicts exactly when the slot is populated and the
idle time strictly exceeds the timeout (disposing the handle and clearing
the slot); an empty slot or an idle time within the timeout leaves the
state unchanged; and from the cleared slot the next acquisition of any
configured key invokes the loader afresh. -/
theorem C6_idle_eviction :
    (∀ (timeout now : Nat) (s : ServerState) (m : Nat),
        s.active_model = some m → now - s.last_access_time > timeout →
        monitor_tick timeout true now s =
          (.ok (),
           { s with active_model := none, active_model_name := none,
                    disposes := s.disposes + 1 }))
  ∧ (∀ (timeout : Nat) (cudaCleanupOk : Bool) (now : Nat)
        (s : ServerState), s.active_model = none →
        monitor_tick timeout cudaCleanupOk now s = (.ok (), s))
  ∧ (∀ (timeout : Nat) (cudaCleanupOk : Bool) (now : Nat) (s : ServerState)
        (m : Nat), s.active_model = some m →
        ¬ now - s.last_access_time > timeout →
        monitor_tick timeout cudaCleanupOk now s = (.ok (), s))
  ∧ (∀ (models : List (String × String))
        (loadFn : String → Except PyErr Nat) (cudaCleanupOk : Bool)
        (now2 : Nat) (key model_id : String) (s : ServerState),
        s.active_model = none → models.lookup key = some model_id →
        (get_or_load_model models loadFn cudaCleanupOk now2 key s).2.loads =
          s.loads + 1) := by
  refine ⟨?_, ?_, ?_, ?_⟩
  · intro timeout now s m hm hidle
    simp [monitor_tick, unload_model, hm, hidle]
  · intro timeout cudaCleanupOk now s hm
    simp [monitor_tick, hm]
  · intro timeout cudaCleanupOk now s m hm hidle
    simp [monitor_tick, hm, hidle]
  · intro models loadFn cudaCleanupOk now2 key model_id s hm hk
    cases hl : loadFn model_id with
    | error e =>
      rw [get_empty_load_fail models loadFn cudaCleanupOk now2 key s model_id
            e hm hk hl]
    | ok h =>
      rw [get_empty_ok models loadFn cudaCleanupOk now2 key s model_id h hm
            hk hl]

/-- Witness for C6: a resident idle for 100 > 5 time units is evicted by
the tick, and re-acquiring `"a"` from the cleared state loads afresh. -/
theorem C6_witness :
    monitor_tick 5 true 100 ⟨some 1, some "a", 0, 1, 0⟩ =
      (.ok (),
       { (⟨some 1, some "a", 0, 1, 0⟩ : ServerState) with
         active_model := none, active_model_name := none,
         disposes := 0 + 1 }) ∧
    (get_or_load_model [("a", "ida")] (fun _ => .ok 7) true 101 "a"
        ⟨none, none, 0, 1, 1⟩).2.loads = 1 + 1 :=
  ⟨C6_idle_eviction.1 5 100 ⟨some 1, some "a", 0, 1, 0⟩ 1 (by decide)
     (by decide),
   C6_idle_eviction.2.2.2 [("a", "ida")] (fun _ => .ok 7) true 101 "a" "ida"
     ⟨none, none, 0, 1, 1⟩ (by decide) (by decide)⟩

/-- Counterexample to C7: a disposal failure is NOT contained.  With a
resident model and failing CUDA cleanup, the sweeper tick's loop body
raises (the `while True` loop has no `try`/`except`, so this terminates
the monitor task), and a swap performed by `get_or_load_model` propagates
the same disposal exception to the acquiring caller. -/
theorem C7_counterexample :
    (monitor_tick 5 false 100 ⟨some 1, some "a", 0, 1, 0⟩).1 =
      .exc (.disposalError "cuda cleanup failed") ∧
    (get_or_load_model [("b", "idb")] (fun _ => .ok 7) false 50 "b"
        ⟨some 1, some "a", 0, 1, 0⟩).1 =
      .exc (.disposalError "cuda cleanup failed") := by
  exact ⟨by decide, by decide⟩

/-- C7 (amended): a disposal failure happens only after the slot has
already been cleared, so subsequent loads can proceed; but nothing
catches it: `unload_model` raises, the swap path of `get_or_load_model`
propagates the disposal exception to the acquiring caller instead of
proceeding to load, and an eligible sweeper tick ends with the same
escaped exception, terminating the monitor loop. -/
theorem C7_disposal_failure_amended :
    (∀ (s : ServerState) (m : Nat), s.active_model = some m →
        unload_model false s =
          (.exc (.disposalError "cuda cleanup failed"),
           { s with active_model := none, active_model_name := none,
                    disposes := s.disposes + 1 }))
  ∧ (∀ (models : List (String × String))
        (loadFn : String → Except PyErr Nat) (now : Nat) (key : String)
        (s : ServerState) (m : Nat), s.active_model = some m →
        s.active_model_name ≠ some key →
        get_or_load_model models loadFn false now key s =
          (.exc (.disposalError "cuda cleanup failed"),
           { active_model := none, active_model_name := none,
             last_access_time := now, loads := s.loads,
             disposes := s.disposes + 1 }))
  ∧ (∀ (timeout now : Nat) (s : ServerState) (m : Nat),
        s.active_model = some m → now - s.last_access_time > timeout →
        monitor_tick timeout false now s =
          (.exc (.disposalError "cuda cleanup failed"),
           { s with active_model := none, active_model_name := none,
                    disposes := s.disposes + 1 })) := by
  refine ⟨?_, ?_, ?_⟩
  · intro s m hm
    simp [unload_model, hm]
  · intro models loadFn now key s m hm hn
    exact get_swap_dispose_fail models loadFn now key s m hm hn
  · intro timeout now s m hm hidle
    simp [monitor_tick, unload_model, hm, hidle]

/-- Witness for the amended C7, at the counterexample's concrete input. -/
theorem C7_witness :
    monitor_tick 5 false 100 ⟨some 1, some "a", 0, 1, 0⟩ =
      (.exc (.disposalError "cuda cleanup failed"),
       { (⟨some 1, some "a", 0, 1, 0⟩ : ServerState) with
         active_model := none, active_model_name := none,
         disposes := 0 + 1 }) :=
  C7_disposal_failure_amended.2.2 5 100 ⟨some 1, some "a", 0, 1, 0⟩ 1
    (by decide) (by decide)

lemma get_last_access (models : List (String × String))
    (loadFn : String → Except PyErr Nat) (cudaCleanupOk : Bool)
    (now : Nat) (key : String) (s : ServerState) :
    (get_or_load_model models loadFn cudaCleanupOk now key
        s).2.last_access_time = now := by
  cases hm : s.active_model with
  | some m =>
    by_cases hn : s.active_model_name = some key
    · rw [get_hit models loadFn cudaCleanupOk now key s m hm hn]
    · cases cudaCleanupOk with
      | false => rw [get_swap_dispose_fail models loadFn now key s m hm hn]
      | true =>
        cases hk : models.lookup key with
        | none => rw [get_swap_unknown models loadFn now key s m hm hn hk]
        | some model_id =>
          cases hl : loadFn model_id with
          | error e =>
            rw [get_swap_load_fail models loadFn now key s m model_id e hm hn
                  hk hl]
          | ok h =>
            rw [get_swap_ok models loadFn now key s m model_id h hm hn hk hl]
  | none =>
    cases hk : models.lookup key with
    | none => rw [get_empty_unknown models loadFn cudaCleanupOk now key s hm hk]
    | some model_id =>
      cases hl : loadFn model_id with
      | error e =>
        rw [get_empty_load_fail models loadFn cudaCleanupOk now key s model_id
              e hm hk hl]
      | ok h =>
        rw [get_empty_ok models loadFn cudaCleanupOk now key s model_id h hm
              hk hl]

/-- C9: every call to `get_or_load_model` writes the current time into
`last_access_time` as its first action, on every path — hit, swap, unknown
key, failed load, disposal failure — so even failing acquisitions refresh
the idle timer; consequently a sweeper tick within the timeout of the
acquisition time leaves the state untouched, postponing eviction. -/
theorem C9_timestamp_always_refreshed :
    (∀ (models : List (String × String))
        (loadFn : String → Except PyErr Nat) (cudaCleanupOk : Bool)
        (now : Nat) (key : String) (s : ServerState),
        (get_or_load_model models loadFn cudaCleanupOk now key
            s).2.last_access_time = now)
  ∧ (∀ (models : List (String × String))
        (loadFn : String → Except PyErr Nat) (c1 c2 : Bool)
        (timeout now now2 : Nat) (key : String) (s : ServerState),
        now2 - now ≤ timeout →
        monitor_tick timeout c2 now2
            (get_or_load_model models loadFn c1 now key s).2 =
          (.ok (), (get_or_load_model models loadFn c1 now key s).2)) := by
  refine ⟨get_last_access, ?_⟩
  intro models loadFn c1 c2 timeout now now2 key s hle
  have hts := get_last_access models loadFn c1 now key s
  cases hm : (get_or_load_model models loadFn c1 now key s).2.active_model with
  | none => simp [monitor_tick, hm]
  | some m =>
    have hno : ¬ now2 -
        (get_or_load_model models loadFn c1 now key s).2.last_access_time >
          timeout := by
      rw [hts]; omega
    simp [monitor_tick, hm, hno]

/-- Witness for C9: an acquisition that fails with an unknown key still
refreshes the timestamp, and a tick 3 ≤ 10 time units later evicts
nothing. -/
theorem C9_witness :
    (get_or_load_model [("a", "ida")] (fun _ => .ok 7) true 50 "bogus"
        ⟨some 1, some "a", 5, 1, 0⟩).2.last_access_time = 50 ∧
    monitor_tick 10 true 53
        (get_or_load_model [("a", "ida")] (fun _ => .ok 7) true 50 "a"
          ⟨some 1, some "a", 5, 1, 0⟩).2 =
      (.ok (),
       (get_or_load_model [("a", "ida")] (fun _ => .ok 7) true 50 "a"
         ⟨some 1, some "a", 5, 1, 0⟩).2) :=
  ⟨C9_timestamp_always_refreshed.1 [("a", "ida")] (fun _ => .ok 7) true 50
     "bogus" ⟨some 1, some "a", 5, 1, 0⟩,
   C9_timestamp_always_refreshed.2 [("a", "ida")] (fun _ => .ok 7) true true
     10 50 53 "a" ⟨some 1, some "a", 5, 1, 0⟩ (by decide)⟩

/-- Test for the `isinstance(outputs, dict)` / `isinstance(outputs,
(tuple, list))` dispatch of `process_audio_output`. -/
def isDictTupleOrList : PyVal → Bool
  | .dict _ => true
  | .tup _ => true
  | .list _ => true
  | _ => false

/-- C10: a model output that is a tuple or list of length 1 (audio only)
makes `process_audio_output` return the fixed default sample rate 12000;
an output that is neither a dict nor a tuple/list raises `TypeError`
naming the offending type. -/
theorem C10_default_sample_rate :
    (∀ a : PyVal,
        process_audio_output (.tup [a]) = .ok (normalizeAudio a, 12000))
  ∧ (∀ a : PyVal,
        process_audio_output (.list [a]) = .ok (normalizeAudio a, 12000))
  ∧ (∀ v : PyVal, isDictTupleOrList v = false →
        process_audio_output v =
          .error (.typeError
            ("Model returned unexpected output type: " ++ pyTypeName v))) := by
  refine ⟨fun a => rfl, fun a => rfl, ?_⟩
  intro v hv
  cases v with
  | dict entries => simp [isDictTupleOrList] at hv
  | tup elems => simp [isDictTupleOrList] at hv
  | list elems => simp [isDictTupleOrList] at hv
  | tensor data => rfl
  | ndarray shape data => rfl
  | intV n => rfl

/-- Witness for C10: a 1-tuple holding a 1-dimensional array yields rate
12000, and a bare int raises `TypeError`. -/
theorem C10_witness :
    process_audio_output (.tup [.ndarray [3] [0, 1, 2]]) =
      .ok (normalizeAudio (.ndarray [3] [0, 1, 2]), 12000) ∧
    process_audio_output (.intV 5) =
      .error (.typeError
        ("Model returned unexpected output type: " ++ pyTypeName (.intV 5))) :=
  ⟨C10_default_sample_rate.1 (.ndarray [3] [0, 1, 2]),
   C10_default_sample_rate.2.2 (.intV 5) rfl⟩

/-- Counterexample to C8: when loading the model fails, `/voice-design`
does NOT answer with an `HTTPException(500, detail)` carrying the error —
`get_or_load_model` is called outside the handler's `try` block, so the
load exception escapes the handler uncaught (FastAPI then produces its
generic 500 response without the error detail). -/
theorem C8_counterexample :
    (voice_design [("1.7b-design", "idd")]
        (fun _ => .error (.loadError "oom")) true 10
        (.ok (.tup [.ndarray [3] [0, 1, 2]])) initState).1 =
      .uncaught (.loadError "oom") ∧
    (∀ detail : String,
      EndpointResult.uncaught (.loadError "oom") ≠
        .httpError 500 detail) := by
  exact ⟨rfl, fun detail hcon => EndpointResult.noConfusion hcon⟩

/-- C8 (amended): for each of the three endpoints, the failures raised
inside the `try` block — the generation call and the
`process_audio_output` post-processing — are answered with
`HTTPException(500, str(e))`; a failure while loading the model is not:
`get_or_load_model` runs outside the `try`, so the load exception escapes
the handler uncaught instead of being mapped to a 500 response carrying
the error detail. -/
theorem C8_endpoint_error_mapping :
    (∀ (models : List (String × String))
        (loadFn : String → Except PyErr Nat) (cudaCleanupOk : Bool)
        (now : Nat) (genE : PyErr) (h : Nat) (s s1 : ServerState),
        get_or_load_model models loadFn cudaCleanupOk now "1.7b-design" s =
          (.ok h, s1) →
        voice_design models loadFn cudaCleanupOk now (.error genE) s =
          (.httpError 500 (strOfErr genE), s1))
  ∧ (∀ (models : List (String × String))
        (loadFn : String → Except PyErr Nat) (cudaCleanupOk : Bool)
        (now : Nat) (outputs : PyVal) (procE : PyErr) (h : Nat)
        (s s1 : ServerState),
        get_or_load_model models loadFn cudaCleanupOk now "1.7b-design" s =
          (.ok h, s1) →
        process_audio_output outputs = .error procE →
        voice_design models loadFn cudaCleanupOk now (.ok outputs) s =
          (.httpError 500 (strOfErr procE), s1))
  ∧ (∀ (models : List (String × String))
        (loadFn : String → Except PyErr Nat) (cudaCleanupOk : Bool)
        (now : Nat) (e : PyErr) (genResult : Except PyErr PyVal)
        (s s1 : ServerState),
        get_or_load_model models loadFn cudaCleanupOk now "1.7b-design" s =
          (.exc e, s1) →
        voice_design models loadFn cudaCleanupOk now genResult s =
          (.uncaught e, s1))
  ∧ (∀ (models : List (String × String))
        (loadFn : String → Except PyErr Nat) (cudaCleanupOk : Bool)
        (now : Nat) (size model_id : String) (genE : PyErr) (h : Nat)
        (s s1 : ServerState),
        models.lookup (size ++ "-custom") = some model_id →
        get_or_load_model models loadFn cudaCleanupOk now
            (size ++ "-custom") s = (.ok h, s1) →
        custom_voice models loadFn cudaCleanupOk now size (.error genE) s =
          (.httpError 500 (strOfErr genE), s1))
  ∧ (∀ (models : List (String × String))
        (loadFn : String → Except PyErr Nat) (cudaCleanupOk : Bool)
        (now : Nat) (size model_id : String) (outputs : PyVal)
        (procE : PyErr) (h : Nat) (s s1 : ServerState),
        models.lookup (size ++ "-custom") = some model_id →
        get_or_load_model models loadFn cudaCleanupOk now
            (size ++ "-custom") s = (.ok h, s1) →
        process_audio_output outputs = .error procE →
        custom_voice models loadFn cudaCleanupOk now size (.ok outputs) s =
          (.httpError 500 (strOfErr procE), s1))
  ∧ (∀ (models : List (String × String))
        (loadFn : String → Except PyErr Nat) (cudaCleanupOk : Bool)
        (now : Nat) (size model_id : String) (e : PyErr)
        (genResult : Except PyErr PyVal) (s s1 : ServerState),
        models.lookup (size ++ "-custom") = some model_id →
        get_or_load_model models loadFn cudaCleanupOk now
            (size ++ "-custom") s = (.exc e, s1) →
        custom_voice models loadFn cudaCleanupOk now size genResult s =
          (.uncaught e, s1))
  ∧ (∀ (models : List (String × String))
        (loadFn : String → Except PyErr Nat) (cudaCleanupOk : Bool)
        (now : Nat) (size model_id : String) (genE : PyErr) (h : Nat)
        (s s1 : ServerState),
        models.lookup (size ++ "-clone") = some model_id →
        get_or_load_model models loadFn cudaCleanupOk now
            (size ++ "-clone") s = (.ok h, s1) →
        voice_clone models loadFn cudaCleanupOk now size (.error genE) s =
          (.httpError 500 (strOfErr genE), s1))
  ∧ (∀ (models : List (String × String))
        (loadFn : String → Except PyErr Nat) (cudaCleanupOk : Bool)
        (now : Nat) (size model_id : String) (outputs : PyVal)
        (procE : PyErr) (h : Nat) (s s1 : ServerState),
        models.lookup (size ++ "-clone") = some model_id →
        get_or_load_model models loadFn cudaCleanupOk now
            (size ++ "-clone") s = (.ok h, s1) →
        process_audio_output outputs = .error procE →
        voice_clone models loadFn cudaCleanupOk now size (.ok outputs) s =
          (.httpError 500 (strOfErr procE), s1))
  ∧ (∀ (models : List (String × String))
        (loadFn : String → Except PyErr Nat) (cudaCleanupOk : Bool)
        (now : Nat) (size model_id : String) (e : PyErr)
        (genResult : Except PyErr PyVal) (s s1 : ServerState),
        models.lookup (size ++ "-clone") = some model_id →
        get_or_load_model models loadFn cudaCleanupOk now
            (size ++ "-clone") s = (.exc e, s1) →
        voice_clone models loadFn cudaCleanupOk now size genResult s =
          (.uncaught e, s1)) := by
  refine ⟨?_, ?_, ?_, ?_, ?_, ?_, ?_, ?_, ?_⟩
  · intro models loadFn cudaCleanupOk now genE h s s1 hget
    simp only [voice_design, hget]
  · intro models loadFn cudaCleanupOk now outputs procE h s s1 hget hproc
    simp only [voice_design, hget, hproc]
  · intro models loadFn cudaCleanupOk now e genResult s s1 hget
    simp only [voice_design, hget]
  · intro models loadFn cudaCleanupOk now size model_id genE h s s1 hk hget
    simp only [custom_voice, hk, hget]
  · intro models loadFn cudaCleanupOk now size model_id outputs procE h s s1
      hk hget hproc
    simp only [custom_voice, hk, hget, hproc]
  · intro models loadFn cudaCleanupOk now size model_id e genResult s s1 hk
      hget
    simp only [custom_voice, hk, hget]
  · intro models loadFn cudaCleanupOk now size model_id genE h s s1 hk hget
    simp only [voice_clone, hk, hget]
  · intro models loadFn cudaCleanupOk now size model_id outputs procE h s s1
      hk hget hproc
    simp only [voice_clone, hk, hget, hproc]
  · intro models loadFn cudaCleanupOk now size model_id e genResult s s1 hk
      hget
    simp only [voice_clone, hk, hget]

/-- Witness for the amended C8: on `/voice-design` a generation failure
and a `process_audio_output` failure each yield a 500 carrying the error
text, while a load failure on `/voice-clone` escapes uncaught. -/
theorem C8_witness :
    voice_design [("1.7b-design", "idd")] (fun _ => .ok 7) true 10
        (.error (.genError "boom")) initState =
      (.httpError 500 (strOfErr (.genError "boom")),
       ⟨some 7, some "1.7b-design", 10, 1, 0⟩) ∧
    voice_design [("1.7b-design", "idd")] (fun _ => .ok 7) true 10
        (.ok (.intV 3)) initState =
      (.httpError 500
         (strOfErr (.typeError
           ("Model returned unexpected output type: " ++ pyTypeName (.intV 3)))),
       ⟨some 7, some "1.7b-design", 10, 1, 0⟩) ∧
    voice_clone [("0.6b-clone", "idc")]
        (fun _ => .error (.loadError "oom")) true 10 "0.6b"
        (.ok (.tup [.ndarray [3] [0, 1, 2]])) initState =
      (.uncaught (.loadError "oom"), ⟨none, none, 10, 1, 0⟩) :=
  ⟨C8_endpoint_error_mapping.1 [("1.7b-design", "idd")] (fun _ => .ok 7)
     true 10 (.genError "boom") 7 initState
     ⟨some 7, some "1.7b-design", 10, 1, 0⟩ (by decide),
   C8_endpoint_error_mapping.2.1 [("1.7b-design", "idd")] (fun _ => .ok 7)
     true 10 (.intV 3)
     (.typeError
       ("Model returned unexpected output type: " ++ pyTypeName (.intV 3)))
     7 initState ⟨some 7, some "1.7b-design", 10, 1, 0⟩ (by decide) rfl,
   C8_endpoint_error_mapping.2.2.2.2.2.2.2.2 [("0.6b-clone", "idc")]
     (fun _ => .error (.loadError "oom")) true 10 "0.6b" "idc"
     (.loadError "oom") (.ok (.tup [.ndarray [3] [0, 1, 2]])) initState
     ⟨none, none, 10, 1, 0⟩ (by decide) (by decide)⟩
